import Mathlib

/-!
Shallow embedding of the pagination / navigation core of the reader module
(`_getPageList`, `gotoPage`, `gotoPageInputField`, `gotoLine`), together with
theorems checking the specified properties of these operations.

JS numbers are modelled as `Int` (all values in this core are integers); a
possibly-NaN number is modelled as `Option Int` (`none` = NaN).  DOM side
effects (rendering, scrolling, marking a TOC title active) do not touch the
navigation state and are outside the model; the history store `setHistory`
is modelled as an append-only log.
-/

/-- JS helper `range(start, end) = Array.from({length: end - start + 1}, (_, i) => i + start)`;
`Array.from` clamps a non-positive length to an empty array. -/
def jsRange (s e : Int) : List Int :=
  (List.range (e - s + 1).toNat).map (fun i : Nat => (i : Int) + s)

/-- `const sideWidth = maxLength < 9 ? 1 : 2;` -/
def sideWidth (maxLength : Int) : Int :=
  if maxLength < 9 then 1 else 2

/-- `const leftWidth = Math.floor((maxLength - sideWidth * 2 - 3) / 2);`
(`Math.floor` of an exact integer ratio is floor division, `Int.fdiv`). -/
def leftWidth (maxLength : Int) : Int :=
  Int.fdiv (maxLength - sideWidth maxLength * 2 - 3) 2

/-- `const rightWidth = Math.floor((maxLength - sideWidth * 2 - 2) / 2);` -/
def rightWidth (maxLength : Int) : Int :=
  Int.fdiv (maxLength - sideWidth maxLength * 2 - 2) 2

/-- `_getPageList(totalPages, currentPage, maxLength, duringProcessing)` from the
reader module: throws when `maxLength < 5` (modelled as `Except.error`), otherwise
returns the pagination strip as a list of page numbers with gaps encoded as `0`. -/
def getPageList (totalPages currentPage maxLength : Int) (duringProcessing : Bool) :
    Except String (List Int) :=
  if maxLength < 5 then
    Except.error "maxLength must be at least 5"
  else if totalPages ≤ maxLength then
    Except.ok (jsRange 1 totalPages)
  else if currentPage ≤ maxLength - sideWidth maxLength - 1 - rightWidth maxLength then
    Except.ok (if duringProcessing
      then jsRange 1 (maxLength - sideWidth maxLength - 1) ++ [0]
      else jsRange 1 (maxLength - sideWidth maxLength - 1) ++ [0] ++
        jsRange (totalPages - sideWidth maxLength + 1) totalPages)
  else if totalPages - sideWidth maxLength - 1 - rightWidth maxLength ≤ currentPage then
    Except.ok (if duringProcessing
      then jsRange 1 (sideWidth maxLength) ++ [0]
      else jsRange 1 (sideWidth maxLength) ++ [0] ++
        jsRange (totalPages - sideWidth maxLength - 1 - rightWidth maxLength - leftWidth maxLength)
          totalPages)
  else
    Except.ok (if duringProcessing
      then jsRange 1 (sideWidth maxLength) ++ [0] ++
        jsRange (currentPage - leftWidth maxLength) (currentPage + rightWidth maxLength) ++ [0]
      else jsRange 1 (sideWidth maxLength) ++ [0] ++
        jsRange (currentPage - leftWidth maxLength) (currentPage + rightWidth maxLength) ++ [0] ++
        jsRange (totalPages - sideWidth maxLength + 1) totalPages)

/-- Number of gap markers (`0` entries) in a page-list result; an error carries none. -/
def gapCount (r : Except String (List Int)) : Nat :=
  match r with
  | Except.ok l => l.count 0
  | Except.error _ => 0

/-- The navigation-relevant shared state (`CONFIG.VARS`): page-break indices,
page counts, the open document's name, the history log written through
`setHistory`, and the one-shot title-click flag. -/
structure ReaderState where
  PAGE_BREAKS : List Int
  TOTAL_PAGES : Int
  CURRENT_PAGE : Int
  FILENAME : String
  HISTORY : List (String × Int)
  GOTO_TITLE_CLICKED : Bool
deriving DecidableEq

/-- `gotoPage(page, scrollTo)`: `CURRENT_PAGE = isNaN(page) ? CURRENT_PAGE :
Math.max(1, Math.min(page, TOTAL_PAGES))`.  Rendering and scrolling do not touch
the navigation state and are outside the model; `none` models a NaN argument. -/
def gotoPage (page : Option Int) (s : ReaderState) : ReaderState :=
  { s with CURRENT_PAGE :=
      match page with
      | none => s.CURRENT_PAGE
      | some p => max 1 (min p s.TOTAL_PAGES) }

/-- `gotoPageInputField(e, scrollTo)`: on the Enter key, parse the input field and
clamp exactly as `gotoPage` does; any other key leaves the state alone.
`inputValue` is the result of `parseInt(e.target.value)` (`none` = NaN). -/
def gotoPageInputField (key : String) (inputValue : Option Int) (s : ReaderState) :
    ReaderState :=
  if key = "Enter" then
    { s with CURRENT_PAGE :=
        match inputValue with
        | none => s.CURRENT_PAGE
        | some p => max 1 (min p s.TOTAL_PAGES) }
  else s

/-- The first two lines of `gotoLine`'s page resolution:
`PAGE_BREAKS.findIndex((breakPoint) => breakPoint > lineNumber)`, with the
`-1` (not found) result replaced by `PAGE_BREAKS.length`. -/
def pageBreakIndex (pageBreaks : List Int) (lineNumber : Int) : Int :=
  match pageBreaks.findIdx? (fun bp => decide (lineNumber < bp)) with
  | some i => (i : Int)
  | none => (pageBreaks.length : Int)

/-- `needToGoPage` as computed by `gotoLine`: the found index clamped by
`Math.max(1, Math.min(needToGoPage, TOTAL_PAGES))`. -/
def resolveTargetPage (pageBreaks : List Int) (totalPages lineNumber : Int) : Int :=
  max 1 (min (pageBreakIndex pageBreaks lineNumber) totalPages)

/-- The DOM element found for a line: an `H2` heading or any other tag.
Only the tag distinction matters to `gotoLine`. -/
inductive DomLine where
  | h2 : DomLine
  | other : DomLine
deriving DecidableEq

/-- `gotoLine(lineNumber, isTitle)`: resolve the target page from `PAGE_BREAKS`,
transition through `gotoPage` when it differs from `CURRENT_PAGE`, then either
mark the title active (title branch, always succeeds) or look the line up in the
DOM (`getLine` models `CONFIG.DOM_ELEMENT.GET_LINE`), returning `-1` with no
history write when the element is missing.  On success `setHistory(FILENAME,
lineNumber)` is recorded and `0` returned. -/
def gotoLine (getLine : Int → Option DomLine) (lineNumber : Int) (isTitle : Bool)
    (s : ReaderState) : Int × ReaderState :=
  let needToGoPage := resolveTargetPage s.PAGE_BREAKS s.TOTAL_PAGES lineNumber
  let s1 := if needToGoPage ≠ s.CURRENT_PAGE then gotoPage (some needToGoPage) s else s
  if isTitle then
    let s2 := { s1 with GOTO_TITLE_CLICKED := true }
    (0, { s2 with HISTORY := s2.HISTORY ++ [(s2.FILENAME, lineNumber)] })
  else
    match getLine lineNumber with
    | some _ => (0, { s1 with HISTORY := s1.HISTORY ++ [(s1.FILENAME, lineNumber)] })
    | none => (-1, s1)

/-! ### Helper lemmas -/

theorem mem_jsRange {x s e : Int} (h : x ∈ jsRange s e) : s ≤ x ∧ x ≤ e := by
  unfold jsRange at h
  rw [List.mem_map] at h
  obtain ⟨i, hi, rfl⟩ := h
  rw [List.mem_range] at hi
  omega

theorem count_zero_jsRange {s e : Int} (h : 1 ≤ s) : (jsRange s e).count 0 = 0 := by
  rw [List.count_eq_zero]
  intro hmem
  have := mem_jsRange hmem
  omega

theorem length_jsRange (s e : Int) : (jsRange s e).length = (e - s + 1).toNat := by
  unfold jsRange
  rw [List.length_map, List.length_range]

theorem jsRange_ne_nil {s e : Int} (h : s ≤ e) : jsRange s e ≠ [] := by
  intro hc
  have hl := length_jsRange s e
  rw [hc] at hl
  simp at hl
  omega

theorem sideWidth_bounds (ml : Int) : 1 ≤ sideWidth ml ∧ sideWidth ml ≤ 2 := by
  unfold sideWidth
  split <;> omega

theorem leftWidth_eq (ml : Int) : leftWidth ml = (ml - sideWidth ml * 2 - 3) / 2 := by
  unfold leftWidth
  exact Int.fdiv_eq_ediv _ (by omega)

theorem rightWidth_eq (ml : Int) : rightWidth ml = (ml - sideWidth ml * 2 - 2) / 2 := by
  unfold rightWidth
  exact Int.fdiv_eq_ediv _ (by omega)

theorem widths_spec (ml : Int) (h5 : 5 ≤ ml) :
    0 ≤ leftWidth ml ∧ 0 ≤ rightWidth ml ∧
      leftWidth ml + rightWidth ml = ml - 2 * sideWidth ml - 3 := by
  rw [leftWidth_eq, rightWidth_eq]
  unfold sideWidth
  split <;> omega

theorem getPageList_full (tp cp ml : Int) (dp : Bool) (h5 : 5 ≤ ml) (hfit : tp ≤ ml) :
    getPageList tp cp ml dp = Except.ok (jsRange 1 tp) := by
  unfold getPageList
  rw [if_neg (by omega), if_pos hfit]

theorem getPageList_start (tp cp ml : Int) (dp : Bool) (h5 : 5 ≤ ml) (hbig : ml < tp)
    (hc : cp ≤ ml - sideWidth ml - 1 - rightWidth ml) :
    getPageList tp cp ml dp = Except.ok (if dp
      then jsRange 1 (ml - sideWidth ml - 1) ++ [0]
      else jsRange 1 (ml - sideWidth ml - 1) ++ [0] ++ jsRange (tp - sideWidth ml + 1) tp) := by
  unfold getPageList
  rw [if_neg (by omega), if_neg (by omega), if_pos hc]

theorem getPageList_end (tp cp ml : Int) (dp : Bool) (h5 : 5 ≤ ml) (hbig : ml < tp)
    (hc1 : ml - sideWidth ml - 1 - rightWidth ml < cp)
    (hc2 : tp - sideWidth ml - 1 - rightWidth ml ≤ cp) :
    getPageList tp cp ml dp = Except.ok (if dp
      then jsRange 1 (sideWidth ml) ++ [0]
      else jsRange 1 (sideWidth ml) ++ [0] ++
        jsRange (tp - sideWidth ml - 1 - rightWidth ml - leftWidth ml) tp) := by
  unfold getPageList
  rw [if_neg (by omega), if_neg (by omega), if_neg (by omega), if_pos hc2]

theorem getPageList_mid (tp cp ml : Int) (dp : Bool) (h5 : 5 ≤ ml) (hbig : ml < tp)
    (hc1 : ml - sideWidth ml - 1 - rightWidth ml < cp)
    (hc2 : cp < tp - sideWidth ml - 1 - rightWidth ml) :
    getPageList tp cp ml dp = Except.ok (if dp
      then jsRange 1 (sideWidth ml) ++ [0] ++
        jsRange (cp - leftWidth ml) (cp + rightWidth ml) ++ [0]
      else jsRange 1 (sideWidth ml) ++ [0] ++
        jsRange (cp - leftWidth ml) (cp + rightWidth ml) ++ [0] ++
        jsRange (tp - sideWidth ml + 1) tp) := by
  unfold getPageList
  rw [if_neg (by omega), if_neg (by omega), if_neg (by omega), if_neg (by omega)]

theorem findIdx_eq_takeWhile_length (p : Int → Bool) (l : List Int) :
    l.findIdx p = (l.takeWhile (fun a => !p a)).length := by
  induction l with
  | nil => rfl
  | cons a l ih =>
    rw [List.findIdx_cons, List.takeWhile_cons]
    cases h : p a <;> simp [h, ih]

theorem pageBreakIndex_eq (pb : List Int) (ln : Int) :
    pageBreakIndex pb ln = ((pb.takeWhile (fun bp => decide (bp ≤ ln))).length : Int) := by
  have hpred : (fun bp : Int => !decide (ln < bp)) = (fun bp : Int => decide (bp ≤ ln)) := by
    funext bp
    by_cases hb : ln < bp <;> simp [hb] <;> omega
  rw [← hpred, ← findIdx_eq_takeWhile_length]
  unfold pageBreakIndex
  rw [List.findIdx_eq_findIdx?]
  cases h : pb.findIdx? (fun bp => decide (ln < bp)) <;> simp [h]

theorem resolveTargetPage_mem (pb : List Int) (tp ln : Int) (h : 1 ≤ tp) :
    1 ≤ resolveTargetPage pb tp ln ∧ resolveTargetPage pb tp ln ≤ tp := by
  unfold resolveTargetPage
  omega

theorem gotoLine_CURRENT_PAGE (g : Int → Option DomLine) (ln : Int) (t : Bool)
    (s : ReaderState) (h : 1 ≤ s.TOTAL_PAGES) :
    (gotoLine g ln t s).2.CURRENT_PAGE = resolveTargetPage s.PAGE_BREAKS s.TOTAL_PAGES ln := by
  have hb := resolveTargetPage_mem s.PAGE_BREAKS s.TOTAL_PAGES ln h
  unfold gotoLine gotoPage
  by_cases hne : resolveTargetPage s.PAGE_BREAKS s.TOTAL_PAGES ln ≠ s.CURRENT_PAGE
  · simp only [if_pos hne]
    cases t <;> cases hg : g ln <;> simp [hg] <;> omega
  · simp only [if_neg hne]
    push_neg at hne
    cases t <;> cases hg : g ln <;> simp [hg, hne]
/-- Claim C1 (corrected): `gotoLine` resolves the target page as the 0-based
`findIndex` of the first `PAGE_BREAKS` entry strictly greater than `lineNumber`
(equivalently, the number of leading entries that are `≤ lineNumber`), or
`PAGE_BREAKS.length` when no such entry exists, clamped to `[1, TOTAL_PAGES]` —
not the 1-based index; with `PageBreaks = [10, 25, 40]` and `TotalPages = 4`,
`gotoLine(9)` resolves to page 1, `gotoLine(10)` to page 1, `gotoLine(39)` to
page 2, `gotoLine(40)` to page 3, and `gotoLine(1000)` to page 3. -/
theorem goto_line_resolution :
    (∀ (pb : List Int) (ln : Int), pageBreakIndex pb ln =
        ((pb.takeWhile (fun bp => decide (bp ≤ ln))).length : Int)) ∧
    (∀ (g : Int → Option DomLine) (ln : Int) (t : Bool) (s : ReaderState),
      1 ≤ s.TOTAL_PAGES →
        (gotoLine g ln t s).2.CURRENT_PAGE =
          resolveTargetPage s.PAGE_BREAKS s.TOTAL_PAGES ln) ∧
    resolveTargetPage [10, 25, 40] 4 9 = 1 ∧
    resolveTargetPage [10, 25, 40] 4 10 = 1 ∧
    resolveTargetPage [10, 25, 40] 4 39 = 2 ∧
    resolveTargetPage [10, 25, 40] 4 40 = 3 ∧
    resolveTargetPage [10, 25, 40] 4 1000 = 3 :=
  ⟨pageBreakIndex_eq, fun g ln t s h => gotoLine_CURRENT_PAGE g ln t s h,
   by decide, by decide, by decide, by decide, by decide⟩

/-- Claim C1 counterexample: the claimed resolution fails at a concrete input —
with `PageBreaks = [10, 25, 40]` and `TotalPages = 4`, `gotoLine(10)` resolves
to page 1 (the source uses the 0-based `findIndex` result), not page 2 as the
claim's 1-based rule requires. -/
theorem goto_line_resolution_counterexample :
    (gotoLine (fun _ => none) 10 true
        (ReaderState.mk [10, 25, 40] 4 3 "doc" [] false)).2.CURRENT_PAGE = 1 ∧
    resolveTargetPage [10, 25, 40] 4 10 ≠ 2 := by
  decide

/-- Claim C1 witness: the amended theorem applied at a concrete state. -/
theorem goto_line_resolution_witness :
    (1 : Int) ≤ (ReaderState.mk [10, 25, 40] 4 1 "doc" [] false).TOTAL_PAGES ∧
    (gotoLine (fun _ => none) 7 true
        (ReaderState.mk [10, 25, 40] 4 1 "doc" [] false)).2.CURRENT_PAGE =
      resolveTargetPage [10, 25, 40] 4 7 :=
  ⟨by decide, goto_line_resolution.2.1 (fun _ => none) 7 true
    (ReaderState.mk [10, 25, 40] 4 1 "doc" [] false) (by decide)⟩

/-- Claim C2 (confirmed): whenever `totalPages ≤ maxLength` (with `maxLength ≥ 5`
and `1 ≤ currentPage ≤ totalPages`), `_getPageList` returns exactly
`[1, 2, ..., totalPages]` with no gap markers, for both values of
`duringProcessing`. -/
theorem full_fit (tp cp ml : Int) (dp : Bool) (h5 : 5 ≤ ml) (h1 : 1 ≤ cp)
    (h2 : cp ≤ tp) (hfit : tp ≤ ml) :
    getPageList tp cp ml dp =
      Except.ok ((List.range tp.toNat).map (fun i : Nat => (i : Int) + 1)) ∧
    ∀ x ∈ (List.range tp.toNat).map (fun i : Nat => (i : Int) + 1), x ≠ 0 := by
  constructor
  · rw [getPageList_full tp cp ml dp h5 hfit]
    unfold jsRange
    rw [show tp - 1 + 1 = tp by ring]
  · intro x hx
    rw [List.mem_map] at hx
    obtain ⟨i, hi, rfl⟩ := hx
    omega

/-- Claim C2 witness: the theorem applied at `totalPages = 3`, `currentPage = 2`,
`maxLength = 5`, `duringProcessing = true`. -/
theorem full_fit_witness :
    ((5 : Int) ≤ 5 ∧ (1 : Int) ≤ 2 ∧ (2 : Int) ≤ 3 ∧ (3 : Int) ≤ 5) ∧
    getPageList 3 2 5 true =
      Except.ok ((List.range (3 : Int).toNat).map (fun i : Nat => (i : Int) + 1)) :=
  ⟨⟨by decide, by decide, by decide, by decide⟩,
   (full_fit 3 2 5 true (by decide) (by decide) (by decide) (by decide)).1⟩
/-- Claim C3 counterexample: at `totalPages = 100`, `currentPage = 50`,
`maxLength = 7`, `duringProcessing = true` (a middle-case input) the source
returns `[1, 0, 49, 50, 51, 0]` — the truncated list still ends with a gap
marker, contradicting the claim's "no trailing gap marker". -/
theorem mid_truncation_counterexample :
    getPageList 100 50 7 true = Except.ok ([1, 0, 49, 50, 51, 0] : List Int) ∧
    ([1, 0, 49, 50, 51, 0] : List Int) ≠ [1, 0, 49, 50, 51] :=
  ⟨by rfl, by decide⟩

/-- Claim C3 (corrected): in the middle case with `duringProcessing = true`,
`_getPageList` returns the leading `sideWidth` pages, one gap marker, the window
`[currentPage - leftWidth, currentPage + rightWidth]`, and then one trailing gap
marker — with no trailing cluster after it. -/
theorem mid_truncation (tp cp ml : Int) (h5 : 5 ≤ ml) (hbig : ml < tp)
    (hc1 : ml - sideWidth ml - 1 - rightWidth ml < cp)
    (hc2 : cp < tp - sideWidth ml - 1 - rightWidth ml) :
    getPageList tp cp ml true =
      Except.ok (jsRange 1 (sideWidth ml) ++ [0] ++
        jsRange (cp - leftWidth ml) (cp + rightWidth ml) ++ [0]) := by
  rw [getPageList_mid tp cp ml true h5 hbig hc1 hc2]
  rfl

/-- Claim C3 witness: the amended theorem applied at `totalPages = 100`,
`currentPage = 50`, `maxLength = 7`. -/
theorem mid_truncation_witness :
    ((5 : Int) ≤ 7 ∧ (7 : Int) < 100 ∧
      7 - sideWidth 7 - 1 - rightWidth 7 < (50 : Int) ∧
      (50 : Int) < 100 - sideWidth 7 - 1 - rightWidth 7) ∧
    getPageList 100 50 7 true =
      Except.ok (jsRange 1 (sideWidth 7) ++ [0] ++
        jsRange (50 - leftWidth 7) (50 + rightWidth 7) ++ [0]) :=
  ⟨⟨by decide, by decide, by decide, by decide⟩,
   mid_truncation 100 50 7 (by decide) (by decide) (by decide) (by decide)⟩
/-- Claim C4 (confirmed): for valid inputs with `totalPages > maxLength` and
`duringProcessing = false`, the result of `_getPageList` contains at most 2 gap
markers, and exactly 1 when `currentPage` lies within the start cluster
(`currentPage ≤ maxLength - sideWidth - 1 - rightWidth`) or within the end
cluster (`currentPage ≥ totalPages - sideWidth - 1 - rightWidth`). -/
theorem gap_count (tp cp ml : Int) (h5 : 5 ≤ ml) (h1 : 1 ≤ cp) (h2 : cp ≤ tp)
    (hbig : ml < tp) :
    gapCount (getPageList tp cp ml false) ≤ 2 ∧
    ((cp ≤ ml - sideWidth ml - 1 - rightWidth ml ∨
        tp - sideWidth ml - 1 - rightWidth ml ≤ cp) →
      gapCount (getPageList tp cp ml false) = 1) := by
  obtain ⟨hsw1, hsw2⟩ := sideWidth_bounds ml
  obtain ⟨hlw, hrw, hsum⟩ := widths_spec ml h5
  by_cases hs : cp ≤ ml - sideWidth ml - 1 - rightWidth ml
  · have hcount : gapCount (getPageList tp cp ml false) = 1 := by
      rw [getPageList_start tp cp ml false h5 hbig hs]
      show (jsRange 1 (ml - sideWidth ml - 1) ++ [0] ++
        jsRange (tp - sideWidth ml + 1) tp).count 0 = 1
      rw [List.count_append, List.count_append,
        count_zero_jsRange (le_refl (1 : Int)),
        count_zero_jsRange (show (1 : Int) ≤ tp - sideWidth ml + 1 by omega)]
      rfl
    exact ⟨by omega, fun _ => hcount⟩
  · push_neg at hs
    by_cases he : tp - sideWidth ml - 1 - rightWidth ml ≤ cp
    · have hcount : gapCount (getPageList tp cp ml false) = 1 := by
        rw [getPageList_end tp cp ml false h5 hbig hs he]
        show (jsRange 1 (sideWidth ml) ++ [0] ++
          jsRange (tp - sideWidth ml - 1 - rightWidth ml - leftWidth ml) tp).count 0 = 1
        rw [List.count_append, List.count_append,
          count_zero_jsRange (le_refl (1 : Int)),
          count_zero_jsRange
            (show (1 : Int) ≤ tp - sideWidth ml - 1 - rightWidth ml - leftWidth ml by omega)]
        rfl
      exact ⟨by omega, fun _ => hcount⟩
    · push_neg at he
      have hcount : gapCount (getPageList tp cp ml false) = 2 := by
        rw [getPageList_mid tp cp ml false h5 hbig hs he]
        show (jsRange 1 (sideWidth ml) ++ [0] ++
          jsRange (cp - leftWidth ml) (cp + rightWidth ml) ++ [0] ++
          jsRange (tp - sideWidth ml + 1) tp).count 0 = 2
        rw [List.count_append, List.count_append, List.count_append, List.count_append,
          count_zero_jsRange (le_refl (1 : Int)),
          count_zero_jsRange (show (1 : Int) ≤ cp - leftWidth ml by omega),
          count_zero_jsRange (show (1 : Int) ≤ tp - sideWidth ml + 1 by omega)]
        rfl
      exact ⟨by omega, fun hcon => by omega⟩

/-- Claim C4 witness: the theorem applied at `totalPages = 20`, `currentPage = 2`,
`maxLength = 5` (a start-cluster input). -/
theorem gap_count_witness :
    ((5 : Int) ≤ 5 ∧ (1 : Int) ≤ 2 ∧ (2 : Int) ≤ 20 ∧ (5 : Int) < 20) ∧
    (gapCount (getPageList 20 2 5 false) ≤ 2 ∧
      (((2 : Int) ≤ 5 - sideWidth 5 - 1 - rightWidth 5 ∨
          20 - sideWidth 5 - 1 - rightWidth 5 ≤ (2 : Int)) →
        gapCount (getPageList 20 2 5 false) = 1)) :=
  ⟨⟨by decide, by decide, by decide, by decide⟩,
   gap_count 20 2 5 (by decide) (by decide) (by decide) (by decide)⟩
/-- Claim C5 counterexample: at `totalPages = 3`, `currentPage = 1`,
`maxLength = 5` (a valid input where everything fits) the sequences returned
with `duringProcessing = true` and `false` are identical, so the former is not a
strict prefix of the latter. -/
theorem processing_truncation_counterexample :
    getPageList 3 1 5 true = Except.ok ([1, 2, 3] : List Int) ∧
    getPageList 3 1 5 false = Except.ok ([1, 2, 3] : List Int) :=
  ⟨by rfl, by rfl⟩

/-- Claim C5 (corrected): for valid inputs the `duringProcessing = true` result
is always a prefix of the `duringProcessing = false` result, and a strict prefix
exactly when `totalPages > maxLength`; when `totalPages ≤ maxLength` the two
results are equal. -/
theorem processing_truncation (tp cp ml : Int) (h5 : 5 ≤ ml) (h1 : 1 ≤ cp)
    (h2 : cp ≤ tp) :
    ∃ l t, getPageList tp cp ml true = Except.ok l ∧
      getPageList tp cp ml false = Except.ok (l ++ t) ∧
      (ml < tp → t ≠ []) ∧ (tp ≤ ml → t = []) := by
  obtain ⟨hsw1, hsw2⟩ := sideWidth_bounds ml
  obtain ⟨hlw, hrw, hsum⟩ := widths_spec ml h5
  by_cases hfit : tp ≤ ml
  · refine ⟨jsRange 1 tp, [], ?_, ?_, fun hcon => absurd hfit (by omega), fun _ => rfl⟩
    · rw [getPageList_full tp cp ml true h5 hfit]
    · rw [getPageList_full tp cp ml false h5 hfit, List.append_nil]
  · push_neg at hfit
    by_cases hs : cp ≤ ml - sideWidth ml - 1 - rightWidth ml
    · refine ⟨jsRange 1 (ml - sideWidth ml - 1) ++ [0],
        jsRange (tp - sideWidth ml + 1) tp, ?_, ?_,
        fun _ => jsRange_ne_nil (by omega), fun hcon => absurd hcon (by omega)⟩
      · rw [getPageList_start tp cp ml true h5 hfit hs]
        rfl
      · rw [getPageList_start tp cp ml false h5 hfit hs]
        rfl
    · push_neg at hs
      by_cases he : tp - sideWidth ml - 1 - rightWidth ml ≤ cp
      · refine ⟨jsRange 1 (sideWidth ml) ++ [0],
          jsRange (tp - sideWidth ml - 1 - rightWidth ml - leftWidth ml) tp, ?_, ?_,
          fun _ => jsRange_ne_nil (by omega), fun hcon => absurd hcon (by omega)⟩
        · rw [getPageList_end tp cp ml true h5 hfit hs he]
          rfl
        · rw [getPageList_end tp cp ml false h5 hfit hs he]
          rfl
      · push_neg at he
        refine ⟨jsRange 1 (sideWidth ml) ++ [0] ++
            jsRange (cp - leftWidth ml) (cp + rightWidth ml) ++ [0],
          jsRange (tp - sideWidth ml + 1) tp, ?_, ?_,
          fun _ => jsRange_ne_nil (by omega), fun hcon => absurd hcon (by omega)⟩
        · rw [getPageList_mid tp cp ml true h5 hfit hs he]
          rfl
        · rw [getPageList_mid tp cp ml false h5 hfit hs he]
          rfl

/-- Claim C5 witness: the amended theorem applied at `totalPages = 10`,
`currentPage = 5`, `maxLength = 5`. -/
theorem processing_truncation_witness :
    ((5 : Int) ≤ 5 ∧ (1 : Int) ≤ 5 ∧ (5 : Int) ≤ 10) ∧
    (∃ l t, getPageList 10 5 5 true = Except.ok l ∧
      getPageList 10 5 5 false = Except.ok (l ++ t) ∧
      ((5 : Int) < 10 → t ≠ []) ∧ ((10 : Int) ≤ 5 → t = [])) :=
  ⟨⟨by decide, by decide, by decide⟩,
   processing_truncation 10 5 5 (by decide) (by decide) (by decide)⟩

/-- Claim C6 counterexample: `computePageList(100, 1, 7, false)` returns
`[1, 2, 3, 4, 5, 0, 100]`, not the claimed `[1, 2, 3, 4, 0, 99, 100]` (the
leading run has `maxLength - sideWidth - 1 = 5` pages and the trailing cluster
`sideWidth = 1` page). -/
theorem concrete_scenario_counterexample :
    getPageList 100 1 7 false = Except.ok ([1, 2, 3, 4, 5, 0, 100] : List Int) ∧
    ([1, 2, 3, 4, 5, 0, 100] : List Int) ≠ [1, 2, 3, 4, 0, 99, 100] :=
  ⟨by rfl, by decide⟩

/-- Claim C6 (corrected): `computePageList(totalPages = 100, currentPage = 1,
maxLength = 7, duringProcessing = false)` returns the leading run
`[1, 2, 3, 4, 5]`, then one gap marker, then the trailing cluster `[100]` —
the claimed leading-run + gap + trailing-cluster shape, with the run sized
`maxLength - sideWidth - 1 = 5` and the cluster sized `sideWidth = 1`. -/
theorem concrete_scenario :
    getPageList 100 1 7 false = Except.ok (jsRange 1 5 ++ [0] ++ jsRange 100 100) ∧
    jsRange 1 5 = [1, 2, 3, 4, 5] ∧ jsRange 100 100 = [100] :=
  ⟨by rfl, by rfl, by rfl⟩
/-- Claim C7 (confirmed): for every state with `TOTAL_PAGES ≥ 1`, `gotoPage`
never raises (it is a total state transformer): a non-numeric (NaN) page keeps
`CURRENT_PAGE` unchanged; a numeric page is clamped into `[1, TOTAL_PAGES]`
(left alone when already in range); in particular `gotoPage(0)` sets
`CURRENT_PAGE` to 1 and `gotoPage(TOTAL_PAGES + 5)` sets it to `TOTAL_PAGES`. -/
theorem goto_page_clamp (s : ReaderState) (h : 1 ≤ s.TOTAL_PAGES) :
    (gotoPage none s).CURRENT_PAGE = s.CURRENT_PAGE ∧
    (∀ p : Int, 1 ≤ (gotoPage (some p) s).CURRENT_PAGE ∧
      (gotoPage (some p) s).CURRENT_PAGE ≤ s.TOTAL_PAGES ∧
      (1 ≤ p → p ≤ s.TOTAL_PAGES → (gotoPage (some p) s).CURRENT_PAGE = p)) ∧
    (gotoPage (some 0) s).CURRENT_PAGE = 1 ∧
    (gotoPage (some (s.TOTAL_PAGES + 5)) s).CURRENT_PAGE = s.TOTAL_PAGES := by
  unfold gotoPage
  refine ⟨rfl, fun p => ⟨?_, ?_, fun hp1 hp2 => ?_⟩, ?_, ?_⟩ <;> simp <;> omega

/-- Claim C7 witness: the theorem applied at a concrete state with
`TOTAL_PAGES = 4`, showing `gotoPage(0)` clamps to page 1. -/
theorem goto_page_clamp_witness :
    (gotoPage (some 0) (ReaderState.mk [] 4 2 "doc" [] false)).CURRENT_PAGE = 1 :=
  (goto_page_clamp (ReaderState.mk [] 4 2 "doc" [] false) (by decide)).2.2.1

/-- Claim C8 (confirmed): `_getPageList` fails (with the `maxLength must be at
least 5` error) exactly when `maxLength < 5`, and returns a page list without
raising for every `maxLength ≥ 5`, whatever the other arguments. -/
theorem page_list_precondition (tp cp ml : Int) (dp : Bool) :
    (ml < 5 → getPageList tp cp ml dp = Except.error "maxLength must be at least 5") ∧
    (5 ≤ ml → ∃ l, getPageList tp cp ml dp = Except.ok l) := by
  constructor
  · intro h
    unfold getPageList
    rw [if_pos h]
  · intro h
    unfold getPageList
    rw [if_neg (by omega)]
    split
    · exact ⟨_, rfl⟩
    · split
      · exact ⟨_, rfl⟩
      · split
        · exact ⟨_, rfl⟩
        · exact ⟨_, rfl⟩

/-- Claim C8 witness: `maxLength = 4` raises, `maxLength = 5` succeeds. -/
theorem page_list_precondition_witness :
    getPageList 10 3 4 false = Except.error "maxLength must be at least 5" ∧
    ∃ l, getPageList 10 3 5 false = Except.ok l :=
  ⟨(page_list_precondition 10 3 4 false).1 (by decide),
   (page_list_precondition 10 3 5 false).2 (by decide)⟩

/-- Claim C9 (confirmed): `CURRENT_PAGE ∈ [1, TOTAL_PAGES]` is an invariant of
the navigation operations: starting from any state with `TOTAL_PAGES ≥ 1` and
`CURRENT_PAGE` in range, each of `gotoPage`, `gotoPageInputField` and `gotoLine`
— with arbitrary arguments — leaves `CURRENT_PAGE` in `[1, TOTAL_PAGES]`
(clamping rather than erroring; all three are total). -/
theorem current_page_invariant (s : ReaderState) (h0 : 1 ≤ s.TOTAL_PAGES)
    (h1 : 1 ≤ s.CURRENT_PAGE) (h2 : s.CURRENT_PAGE ≤ s.TOTAL_PAGES) :
    (∀ page, 1 ≤ (gotoPage page s).CURRENT_PAGE ∧
      (gotoPage page s).CURRENT_PAGE ≤ s.TOTAL_PAGES) ∧
    (∀ key v, 1 ≤ (gotoPageInputField key v s).CURRENT_PAGE ∧
      (gotoPageInputField key v s).CURRENT_PAGE ≤ s.TOTAL_PAGES) ∧
    (∀ (g : Int → Option DomLine) (ln : Int) (t : Bool),
      1 ≤ (gotoLine g ln t s).2.CURRENT_PAGE ∧
      (gotoLine g ln t s).2.CURRENT_PAGE ≤ s.TOTAL_PAGES) := by
  refine ⟨fun page => ?_, fun key v => ?_, fun g ln t => ?_⟩
  · unfold gotoPage
    cases page <;> simp <;> omega
  · unfold gotoPageInputField
    split
    · cases v <;> simp <;> omega
    · omega
  · rw [gotoLine_CURRENT_PAGE g ln t s h0]
    exact resolveTargetPage_mem s.PAGE_BREAKS s.TOTAL_PAGES ln h0

/-- Claim C9 witness: the theorem applied at a concrete in-range state, for an
out-of-range `gotoPage(99)` request. -/
theorem current_page_invariant_witness :
    1 ≤ (gotoPage (some 99) (ReaderState.mk [0, 10] 2 1 "doc" [] false)).CURRENT_PAGE ∧
    (gotoPage (some 99) (ReaderState.mk [0, 10] 2 1 "doc" [] false)).CURRENT_PAGE ≤
      (ReaderState.mk [0, 10] 2 1 "doc" [] false).TOTAL_PAGES :=
  (current_page_invariant (ReaderState.mk [0, 10] 2 1 "doc" [] false)
    (by decide) (by decide) (by decide)).1 (some 99)

/-- Claim C10 (confirmed): `gotoLine(lineNumber, isTitle = true)` always
succeeds — it returns 0 and appends `(FILENAME, lineNumber)` to the history —
and it never consults the DOM line lookup; the `-1` failure (with no history
write) is reachable only when `isTitle = false` and the lookup finds nothing. -/
theorem goto_line_title_success (g : Int → Option DomLine) (ln : Int) (t : Bool)
    (s : ReaderState) :
    (gotoLine g ln true s).1 = 0 ∧
    (gotoLine g ln true s).2.HISTORY = s.HISTORY ++ [(s.FILENAME, ln)] ∧
    (∀ g' : Int → Option DomLine, gotoLine g ln true s = gotoLine g' ln true s) ∧
    ((gotoLine g ln t s).1 = -1 →
      t = false ∧ g ln = none ∧ (gotoLine g ln t s).2.HISTORY = s.HISTORY) := by
  refine ⟨?_, ?_, fun g' => rfl, ?_⟩ <;>
    · unfold gotoLine gotoPage
      by_cases hne : resolveTargetPage s.PAGE_BREAKS s.TOTAL_PAGES ln ≠ s.CURRENT_PAGE <;>
        cases t <;> cases hg : g ln <;> simp [hne, hg]

/-- Claim C10 witness: the theorem applied with a lookup that finds nothing and
`isTitle = false`: the title branch still returns 0 and writes history. -/
theorem goto_line_title_success_witness :
    (gotoLine (fun _ => none) 12 true (ReaderState.mk [0, 10] 2 1 "doc" [] false)).1 = 0 ∧
    (gotoLine (fun _ => none) 12 true (ReaderState.mk [0, 10] 2 1 "doc" [] false)).2.HISTORY =
      (ReaderState.mk [0, 10] 2 1 "doc" [] false).HISTORY ++
        [((ReaderState.mk [0, 10] 2 1 "doc" [] false).FILENAME, 12)] :=
  ⟨(goto_line_title_success (fun _ => none) 12 false
      (ReaderState.mk [0, 10] 2 1 "doc" [] false)).1,
   (goto_line_title_success (fun _ => none) 12 false
      (ReaderState.mk [0, 10] 2 1 "doc" [] false)).2.1⟩
